import Mathlib

/-!
Verification of the `CelebAMaskDataset` sample provider
(`src/dataloader/dataset.py`) as a shallow embedding.

Modelling conventions:
* identifiers (relative paths minus extension) are `String`s;
* a grayscale label image (`np.array` of the mask PIL image) is a
  `List (List Nat)` (row-major, one natural number per pixel);
* float tensors are nested lists of `ℚ`; the one-hot/rescale arithmetic
  on the values 0.0 / 1.0 / 0.5 is exact in IEEE doubles, so `ℚ` is a
  faithful model of it;
* the raw image type `I` and the image-tensor type `T` are parameters:
  the claims under check never inspect image pixels, and `preprocess`,
  `aug_t` and `unlabel_transform` are carried as function-valued fields;
* the filesystem is two partial maps `images`, `labels` from identifier
  to file content; a missing file is `none` (Python: file-not-found at
  access time);
* fallible Python code (raise, ZeroDivisionError, missing attribute)
  becomes `Except String`.
-/

/-- The fixed 8-entry palette `self.color_map` of `CelebAMaskDataset.__init__`;
only its cardinality is used by the loading logic (`_mask_labels`). -/
def color_map : List (Nat × (Nat × Nat × Nat)) :=
  [(0, (0, 0, 0)), (1, (0, 0, 205)), (2, (132, 112, 255)), (3, (25, 25, 112)),
   (4, (187, 255, 255)), (5, (102, 205, 170)), (6, (227, 207, 87)), (7, (142, 142, 56))]

/-- `label_size = len(self.color_map.keys())` in `_mask_labels`. -/
def label_size : Nat := color_map.length

/-- `border = int(len(train_val_idx_list) * 0.8)` in `__init__`.
Python truncates the double `len * 0.8` toward zero; because the double
nearest 0.8 is slightly above 4/5 and list lengths are far below 2^50,
that truncation equals `⌊4·N/5⌋`, i.e. `4 * N / 5` in `Nat`. -/
def border (train_val_idx_list : List String) : Nat :=
  4 * train_val_idx_list.length / 5

/-- `train_idx_list = train_val_idx_list[:border]` in `__init__`. -/
def train_idx_list (train_val_idx_list : List String) : List String :=
  train_val_idx_list.take (border train_val_idx_list)

/-- `val_idx_list = train_val_idx_list[border:]` in `__init__`. -/
def val_idx_list (train_val_idx_list : List String) : List String :=
  train_val_idx_list.drop (border train_val_idx_list)

/-- The identifier-list selection of `CelebAMaskDataset.__init__`
(lines 59–85): in labeled mode the phase picks the train / val /
train-val slice of the scanned list and any other phase raises a bare
`Exception`; in unlabeled mode the full unlabeled scan is used and the
phase is never examined.  `label_scan` and `unlabel_scan` stand for the
`glob` results over `label_data/image` resp. `unlabel_data/image`. -/
def init_idx_list (is_label : Bool) (phase : String)
    (label_scan unlabel_scan : List String) : Except String (List String) :=
  if is_label = true then
    if phase = "train" then .ok (train_idx_list label_scan)
    else if phase = "val" then .ok (val_idx_list label_scan)
    else if phase = "train-val" then .ok label_scan
    else .error "Exception"
  else .ok unlabel_scan

/-- `CelebAMaskDataset._mask_labels`: starting from
`np.zeros((label_size, H, W))`, channel `i` is set to 1.0 exactly where
`mask_np == i`; pointwise this makes channel `i` at a pixel of value `v`
equal to `1` when `v = i` and `0` otherwise. -/
def mask_labels (mask_np : List (List Nat)) : List (List (List ℚ)) :=
  (List.range label_size).map fun i =>
    mask_np.map fun row => row.map fun v => if v = i then (1 : ℚ) else 0

/-- The `(mask_tensor - 0.5) / 0.5` rescale of `__getitem__`, applied
elementwise to the (8,H,W) tensor. -/
def rescale3 (t : List (List (List ℚ))) : List (List (List ℚ)) :=
  t.map fun ch => ch.map fun row => row.map fun x => (x - 0.5) / 0.5

/-- The inverse rescale `x * 0.5 + 0.5` used when recovering the one-hot
tensor from a normalized mask tensor, applied elementwise. -/
def unrescale3 (t : List (List (List ℚ))) : List (List (List ℚ)) :=
  t.map fun ch => ch.map fun row => row.map fun x => x * 0.5 + 0.5

/-- Pixel read in a (H,W) rational array (0 when out of bounds). -/
def pix (t : List (List ℚ)) (r c : Nat) : ℚ := (t.getD r []).getD c 0

/-- Pixel read in a (C,H,W) rational tensor (0 when out of bounds). -/
def pix3 (t : List (List (List ℚ))) (i r c : Nat) : ℚ := pix (t.getD i []) r c

/-- Pixel read in a (H,W) label array (0 when out of bounds). -/
def mpix (m : List (List Nat)) (r c : Nat) : Nat := (m.getD r []).getD c 0

/-- The external `args` object: `hasattr(args, 'n_gpu')`/`args.batch`
are modelled as optional fields (`none` = attribute absent). -/
structure Args where
  n_gpu : Option Nat
  batch : Option Nat

/-- The state of a constructed `CelebAMaskDataset`, over a raw-image
type `I` and an image-tensor type `T`.  `aug_t` is one concrete draw of
the random augmentation pipeline (the albumentations `Compose` applied
to the image/mask pair); `images` / `labels` are the contents of
`self.img_dir` / `self.label_dir`. -/
structure DState (I T : Type) where
  args : Args
  idx_list : List String
  is_label : Bool
  phase : String
  aug : Bool
  aug_t : I → List (List Nat) → I × List (List Nat)
  preprocess : I → T
  unlabel_transform : Option (I → T)
  images : String → Option I
  labels : String → Option (List (List Nat))

/-- `self.data_size = len(self.idx_list)`. -/
def data_size {I T : Type} (st : DState I T) : Nat := st.idx_list.length

/-- `CelebAMaskDataset.__len__`: the real size when `args` has no
`n_gpu` attribute, else `max(args.batch * args.n_gpu, data_size)`
(reading a missing `batch` would raise an `AttributeError`). -/
def dlen {I T : Type} (st : DState I T) : Except String Nat :=
  match st.args.n_gpu with
  | none => .ok (data_size st)
  | some g =>
    match st.args.batch with
    | none => .error "AttributeError"
    | some b => .ok (max (b * g) (data_size st))

/-- The index wrap at the top of `__getitem__`:
`if idx >= self.data_size: idx = idx % self.data_size`.  When
`data_size` is 0 the guard holds for every `idx`, and the Python `%`
raises `ZeroDivisionError`. -/
def wrap_idx (size idx : Nat) : Except String Nat :=
  if size ≤ idx then
    if size = 0 then .error "ZeroDivisionError" else .ok (idx % size)
  else .ok idx

/-- One produced sample: the dict `{'image': ..., 'mask': ...}` (labeled)
or `{'image': ...}` (unlabeled) returned by `__getitem__`. -/
structure SampleOut (T : Type) where
  image : T
  mask : Option (List (List (List ℚ)))

/-- The body of `__getitem__` after the index wrap: resolve the
identifier, load the image (and in labeled mode the mask), then either
run the augmentation pipeline before encoding (train / train-val phase
with `aug` on) or encode the raw pair; in unlabeled mode apply
`unlabel_transform` (defaulting to `preprocess`) to the image alone. -/
def load_sample {I T : Type} (st : DState I T) (i : Nat) :
    Except String (SampleOut T) :=
  match st.idx_list.get? i with
  | none => .error "IndexError"
  | some img_idx =>
    match st.images img_idx with
    | none => .error "FileNotFoundError"
    | some img_pil =>
      if st.is_label = true then
        match st.labels img_idx with
        | none => .error "FileNotFoundError"
        | some mask_np =>
          if (st.phase = "train" ∨ st.phase = "train-val") ∧ st.aug = true then
            let augmented := st.aug_t img_pil mask_np
            .ok ⟨st.preprocess augmented.1, some (rescale3 (mask_labels augmented.2))⟩
          else
            .ok ⟨st.preprocess img_pil, some (rescale3 (mask_labels mask_np))⟩
      else
        .ok ⟨(st.unlabel_transform.getD st.preprocess) img_pil, none⟩

/-- `CelebAMaskDataset.__getitem__`: wrap the index, then load. -/
def getitem {I T : Type} (st : DState I T) (idx : Nat) :
    Except String (SampleOut T) :=
  match wrap_idx (data_size st) idx with
  | .error e => .error e
  | .ok i => load_sample st i

/-! ## Helper lemmas -/

theorem getD_map_of_lt {α β : Type} (f : α → β) (l : List α) (i : Nat)
    (h : i < l.length) (d : β) :
    (l.map f).getD i d = f l[i] := by
  simp [List.getD, List.getElem?_eq_getElem, h]

theorem pix3_mask_labels (mask_np : List (List Nat)) (i r c : Nat)
    (hi : i < label_size) (hr : r < mask_np.length)
    (hc : c < (mask_np.getD r []).length) :
    pix3 (mask_labels mask_np) i r c =
      if mpix mask_np r c = i then 1 else 0 := by
  have hrow : mask_np.getD r [] = mask_np[r] := by
    simp [List.getD, List.getElem?_eq_getElem, hr]
  have hc' : c < mask_np[r].length := hrow ▸ hc
  have hv : mpix mask_np r c = mask_np[r][c] := by
    unfold mpix
    rw [hrow]
    simp [List.getD, List.getElem?_eq_getElem, hc']
  unfold pix3 pix mask_labels
  rw [getD_map_of_lt _ _ i (by simpa using hi)]
  simp only [List.getElem_range]
  rw [getD_map_of_lt _ _ r hr, getD_map_of_lt _ _ c hc', hv]

theorem unrescale3_rescale3 (t : List (List (List ℚ))) :
    unrescale3 (rescale3 t) = t := by
  have h : ∀ x : ℚ, (x - 0.5) / 0.5 * 0.5 + 0.5 = x := by
    intro x; ring
  unfold rescale3 unrescale3
  simp [List.map_map, Function.comp_def, h]

/-! ## Claim theorems -/

/-- Claim C1: in labeled mode, for every scanned identifier list of
length N, the train split is exactly the first ⌊0.8·N⌋ elements, the
val split is exactly the rest, their in-order concatenation is the full
list (no shuffling), and the lengths add up to N. -/
theorem claim_C1_split (l u : List String) :
    init_idx_list true "train" l u = .ok (l.take (4 * l.length / 5)) ∧
    init_idx_list true "val" l u = .ok (l.drop (4 * l.length / 5)) ∧
    l.take (4 * l.length / 5) ++ l.drop (4 * l.length / 5) = l ∧
    (l.take (4 * l.length / 5)).length + (l.drop (4 * l.length / 5)).length
      = l.length := by
  refine ⟨?_, ?_, List.take_append_drop _ _, ?_⟩
  · simp [init_idx_list, train_idx_list, border]
  · simp [init_idx_list, val_idx_list, border]
  · simp only [List.length_take, List.length_drop]
    omega

/-- Claim C3: applying the inverse rescale `x * 0.5 + 0.5` to the
rescaled mask tensor `(one_hot - 0.5) / 0.5` produced from any label
array restores the original 0/1 one-hot tensor exactly. -/
theorem claim_C3_round_trip (mask_np : List (List Nat)) :
    unrescale3 (rescale3 (mask_labels mask_np)) = mask_labels mask_np :=
  unrescale3_rescale3 (mask_labels mask_np)

/-- Claim C7: labeled-mode construction fails (with the generic bare
`Exception`) exactly when the phase is none of `train`, `val`,
`train-val`; with a recognized phase it succeeds. -/
theorem claim_C7_phase_check (phase : String) (l u : List String) :
    (phase ≠ "train" ∧ phase ≠ "val" ∧ phase ≠ "train-val" →
      init_idx_list true phase l u = .error "Exception") ∧
    (phase = "train" ∨ phase = "val" ∨ phase = "train-val" →
      ∃ r, init_idx_list true phase l u = .ok r) := by
  constructor
  · rintro ⟨h1, h2, h3⟩
    simp [init_idx_list, h1, h2, h3]
  · rintro (h | h | h) <;> subst h <;> simp [init_idx_list]

/-- Claim C7 witness: an unrecognized phase `"test"` yields the error,
and the recognized phase `"val"` succeeds. -/
theorem claim_C7_witness :
    init_idx_list true "test" ["a"] [] = .error "Exception" ∧
    ∃ r, init_idx_list true "val" ["a"] [] = .ok r :=
  ⟨(claim_C7_phase_check "test" ["a"] []).1 (by decide),
   (claim_C7_phase_check "val" ["a"] []).2 (Or.inr (Or.inl rfl))⟩

/-- Claim C9: in unlabeled mode construction returns the full unlabeled
scan whatever the phase is; the phase is never validated, so
construction succeeds for every phase value. -/
theorem claim_C9_unlabeled_ignores_phase (phase : String) (l u : List String) :
    init_idx_list false phase l u = .ok u := by
  simp [init_idx_list]

/-- Claim C2: for a label array whose pixel at (r,c) has a value in
[0,7], the pre-rescale one-hot tensor has value 1 exactly in the channel
indexed by that pixel's value and 0 in all seven other channels. -/
theorem claim_C2_one_hot (mask_np : List (List Nat)) (r c : Nat)
    (hr : r < mask_np.length) (hc : c < (mask_np.getD r []).length)
    (hv : mpix mask_np r c ≤ 7) :
    pix3 (mask_labels mask_np) (mpix mask_np r c) r c = 1 ∧
    ∀ i < label_size, i ≠ mpix mask_np r c →
      pix3 (mask_labels mask_np) i r c = 0 := by
  have hsize : label_size = 8 := rfl
  constructor
  · rw [pix3_mask_labels _ _ _ _ (by omega) hr hc]
    simp
  · intro i hi hne
    rw [pix3_mask_labels _ _ _ _ hi hr hc]
    have hne' : ¬mpix mask_np r c = i := fun h => hne h.symm
    simp [hne']

/-- Claim C2 witness: the spec's 2×2 example `[[0,1],[2,7]]` at pixel
(1,1), whose value is 7: channel 7 is hot there and all others are 0. -/
theorem claim_C2_witness :
    pix3 (mask_labels [[0, 1], [2, 7]]) (mpix [[0, 1], [2, 7]] 1 1) 1 1 = 1 ∧
    ∀ i < label_size, i ≠ mpix [[0, 1], [2, 7]] 1 1 →
      pix3 (mask_labels [[0, 1], [2, 7]]) i 1 1 = 0 :=
  claim_C2_one_hot [[0, 1], [2, 7]] 1 1 (by decide) (by decide) (by decide)

/-- Claim C8: at a pixel whose label value is outside [0,7], the encoder
(total, never raising) sets none of the 8 channels — all are 0 there —
while every in-range pixel still gets its one-hot channel set to 1. -/
theorem claim_C8_out_of_range (mask_np : List (List Nat)) (r c : Nat)
    (hr : r < mask_np.length) (hc : c < (mask_np.getD r []).length)
    (hv : 8 ≤ mpix mask_np r c) :
    (∀ i < label_size, pix3 (mask_labels mask_np) i r c = 0) ∧
    (∀ r' c', r' < mask_np.length → c' < (mask_np.getD r' []).length →
      mpix mask_np r' c' ≤ 7 →
      pix3 (mask_labels mask_np) (mpix mask_np r' c') r' c' = 1) := by
  have hsize : label_size = 8 := rfl
  constructor
  · intro i hi
    rw [pix3_mask_labels _ _ _ _ hi hr hc]
    have hne : mpix mask_np r c ≠ i := by omega
    simp [hne]
  · intro r' c' hr' hc' hv'
    rw [pix3_mask_labels _ _ _ _ (by omega) hr' hc']
    simp

/-- Claim C8 witness: in the array `[[3, 9]]` the out-of-range pixel
(0,1) of value 9 gets all-zero channels while the in-range pixel (0,0)
of value 3 is one-hot. -/
theorem claim_C8_witness :
    (∀ i < label_size, pix3 (mask_labels [[3, 9]]) i 0 1 = 0) ∧
    (∀ r' c', r' < ([[3, 9]] : List (List Nat)).length →
      c' < (([[3, 9]] : List (List Nat)).getD r' []).length →
      mpix [[3, 9]] r' c' ≤ 7 →
      pix3 (mask_labels [[3, 9]]) (mpix [[3, 9]] r' c') r' c' = 1) :=
  claim_C8_out_of_range [[3, 9]] 0 1 (by decide) (by decide) (by decide)

/-- Claim C4: whenever the wrap of `__getitem__` triggers (the index is
at least the real dataset size) and the dataset is non-empty, the result
is the same as for the modulo-reduced index. -/
theorem claim_C4_mod_wrap {I T : Type} (st : DState I T) (idx : Nat)
    (h0 : 0 < data_size st) (h : data_size st ≤ idx) :
    getitem st idx = getitem st (idx % data_size st) := by
  have h1 : idx % data_size st < data_size st := Nat.mod_lt _ h0
  unfold getitem wrap_idx
  rw [if_pos h, if_neg (Nat.pos_iff_ne_zero.mp h0), if_neg (not_le.mpr h1)]

/-- A concrete labeled two-sample dataset state used by the witnesses. -/
def wstate : DState Nat Nat where
  args := ⟨none, none⟩
  idx_list := ["a", "b"]
  is_label := true
  phase := "train"
  aug := false
  aug_t := fun i m => (i + 1, m.map fun row => row.map (· + 1))
  preprocess := fun i => i
  unlabel_transform := none
  images := fun _ => some 0
  labels := fun _ => some [[0]]

/-- Claim C4 witness: index 5 against the two-element dataset `wstate`
loads the same sample as index 5 mod 2 = 1. -/
theorem claim_C4_witness :
    0 < data_size wstate ∧ data_size wstate ≤ 5 ∧
    getitem wstate 5 = getitem wstate (5 % data_size wstate) :=
  ⟨by decide, by decide, claim_C4_mod_wrap wstate 5 (by decide) (by decide)⟩

/-- Claim C5: the reported length is the real sample count when `args`
has no `n_gpu` attribute, and `max(batch * n_gpu, real count)` when the
replication factor is configured. -/
theorem claim_C5_len {I T : Type} (st : DState I T) :
    (st.args.n_gpu = none → dlen st = .ok (data_size st)) ∧
    (∀ g b, st.args.n_gpu = some g → st.args.batch = some b →
      dlen st = .ok (max (b * g) (data_size st))) := by
  constructor
  · intro h
    simp [dlen, h]
  · intro g b hg hb
    simp [dlen, hg, hb]

/-- A copy of `wstate` whose `args` carries `n_gpu = 3`, `batch = 4`. -/
def wstate5 : DState Nat Nat := { wstate with args := ⟨some 3, some 4⟩ }

/-- Claim C5 witness: `wstate` (no `n_gpu`) reports its real size 2;
`wstate5` (batch 4, n_gpu 3) reports `max (4 * 3) 2`. -/
theorem claim_C5_witness :
    dlen wstate = .ok (data_size wstate) ∧
    dlen wstate5 = .ok (max (4 * 3) (data_size wstate5)) :=
  ⟨(claim_C5_len wstate).1 rfl, (claim_C5_len wstate5).2 3 4 rfl rfl⟩

/-- Claim C10: with an empty identifier list (real size 0), every call
`getitem idx` fails with the `ZeroDivisionError` of `idx % 0` at the
wrapping step, whatever the filesystem maps contain — no file access
can be attempted. -/
theorem claim_C10_empty_mod_zero {I T : Type} (st : DState I T) (idx : Nat)
    (h : st.idx_list = []) :
    getitem st idx = .error "ZeroDivisionError" := by
  unfold getitem wrap_idx data_size
  rw [h]
  simp

/-- A copy of `wstate` with an empty identifier list (fully populated
filesystem maps, which the failure does not consult). -/
def wstate0 : DState Nat Nat := { wstate with idx_list := [] }

/-- Claim C10 witness: on the empty dataset `wstate0`, index 7 raises
the modulo-by-zero error. -/
theorem claim_C10_witness :
    getitem wstate0 7 = .error "ZeroDivisionError" :=
  claim_C10_empty_mod_zero wstate0 7 rfl

/-- Claim C6: given that index resolution and file lookups succeed, the
augmentation pipeline is applied to the sample exactly when the dataset
is labeled, the phase is `train` or `train-val`, and `aug` is enabled;
in every other case the encoder/normalizer run on the un-augmented
image and mask (and the unlabeled path only transforms the image). -/
theorem claim_C6_aug_condition {I T : Type} (st : DState I T) (idx i : Nat)
    (ident : String) (img : I) (m : List (List Nat))
    (hw : wrap_idx (data_size st) idx = .ok i)
    (hid : st.idx_list.get? i = some ident)
    (himg : st.images ident = some img)
    (hm : st.labels ident = some m) :
    (st.is_label = true →
      (((st.phase = "train" ∨ st.phase = "train-val") ∧ st.aug = true) →
        getitem st idx = .ok ⟨st.preprocess (st.aug_t img m).1,
          some (rescale3 (mask_labels (st.aug_t img m).2))⟩) ∧
      (¬((st.phase = "train" ∨ st.phase = "train-val") ∧ st.aug = true) →
        getitem st idx = .ok ⟨st.preprocess img,
          some (rescale3 (mask_labels m))⟩)) ∧
    (st.is_label = false →
      getitem st idx =
        .ok ⟨(st.unlabel_transform.getD st.preprocess) img, none⟩) := by
  have hgi : getitem st idx = load_sample st i := by
    unfold getitem
    rw [hw]
  constructor
  · intro hl
    constructor
    · intro hcond
      rw [hgi]
      simp only [load_sample, hid, himg, hm, hl]
      rw [if_pos hcond]
      simp
    · intro hcond
      rw [hgi]
      simp only [load_sample, hid, himg, hm, hl]
      rw [if_neg hcond]
      simp
  · intro hl
    rw [hgi]
    simp only [load_sample, hid, himg, hl]
    simp

/-- A copy of `wstate` with augmentation enabled. -/
def wstate6 : DState Nat Nat := { wstate with aug := true }

/-- Claim C6 witness: on the labeled, `train`-phase, `aug`-enabled state
`wstate6`, sample 0 is produced from the augmented image/mask pair. -/
theorem claim_C6_witness :
    getitem wstate6 0 = .ok ⟨wstate6.preprocess (wstate6.aug_t 0 [[0]]).1,
      some (rescale3 (mask_labels (wstate6.aug_t 0 [[0]]).2))⟩ :=
  ((claim_C6_aug_condition wstate6 0 0 "a" 0 [[0]] rfl rfl rfl rfl).1 rfl).1
    ⟨Or.inl rfl, rfl⟩
